import Mathlib

set_option maxRecDepth 4000

/-!
Shallow embedding of the client-side career-guidance application
(SkZaraSultana/Synaptix_AuraX4), covering the form validators, the axios
response interceptor and auth store, the gamification store, the quiz page's
timer / finish logic, the EnhancedDomainApi fallback wrapper, and the
university-search hook.  Each definition is translated from the TypeScript
source file named in its doc comment.
-/

/-- Result type of the validators in `src/lib/validation.ts`. -/
structure ValidationResult where
  valid : Bool
  message : Option String
deriving DecidableEq, Repr

/-- Character class `[a-zA-Z0-9._%+-]` of the email regex local part. -/
def isLocalChar (c : Char) : Bool :=
  c.isAlphanum || c = '.' || c = '_' || c = '%' || c = '+' || c = '-'

/-- Character class `[a-zA-Z0-9.-]` of the email regex domain part. -/
def isDomainChar (c : Char) : Bool :=
  c.isAlphanum || c = '.' || c = '-'

/-- `[a-z]\x7b2,\x7d` under the case-insensitive flag: at least two ASCII letters. -/
def tldOk (t : List Char) : Bool :=
  2 ≤ t.length && t.all Char.isAlpha

/-- Matcher for the regex fragment `[a-zA-Z0-9.-]*\.[a-z]\x7b2,\x7d$`. -/
def dotTld : List Char → Bool
  | [] => false
  | c :: rest => (c = '.' && tldOk rest) || (isDomainChar c && dotTld rest)

/-- Matcher for the regex fragment `[a-zA-Z0-9.-]+\.[a-z]\x7b2,\x7d$`. -/
def domMatch : List Char → Bool
  | [] => false
  | c :: rest => isDomainChar c && dotTld rest

/-- Matcher for `[a-zA-Z0-9._%+-]*@` followed by the domain fragment. -/
def emailTail : List Char → Bool
  | [] => false
  | c :: rest => (c = '@' && domMatch rest) || (isLocalChar c && emailTail rest)

/-- `regex.test(email)` for `/^[a-zA-Z0-9._%+-]+@[a-zA-Z0-9.-]+\.[a-z]\x7b2,\x7d$/i`. -/
def emailRegexTest (email : String) : Bool :=
  match email.toList with
  | [] => false
  | c :: rest => isLocalChar c && emailTail rest

/-- JavaScript `s.endsWith(suffix)` (code-point based, which agrees on ASCII). -/
def jsEndsWith (s suffix : String) : Bool :=
  suffix.toList.isSuffixOf s.toList

/-- `validateEmail` from `src/lib/validation.ts`. -/
def validateEmail (email : String) : ValidationResult :=
  if email = "" then ⟨false, some "Email is required"⟩
  else if !emailRegexTest email then ⟨false, some "Invalid email format"⟩
  else if !(jsEndsWith email ".com" || jsEndsWith email ".in") then
    ⟨false, some "Email must end with .com or .in"⟩
  else ⟨true, none⟩

/-- Character class `[@$!%*?&]` of the password regex. -/
def isSpecialChar (c : Char) : Bool :=
  c = '@' || c = '$' || c = '!' || c = '%' || c = '*' || c = '?' || c = '&'

/-- Character class `[A-Za-z\d@$!%*?&]` of the password regex body. -/
def isPasswordChar (c : Char) : Bool :=
  c.isAlpha || c.isDigit || isSpecialChar c

/-- `regex.test(password)` for
`/^(?=.*[a-z])(?=.*[A-Z])(?=.*\d)(?=.*[@$!%*?&])[A-Za-z\d@$!%*?&]\x7b8,\x7d$/`:
the four lookaheads plus the anchored body. -/
def passwordRegexTest (password : String) : Bool :=
  let cs := password.toList
  cs.any Char.isLower && cs.any Char.isUpper && cs.any Char.isDigit &&
    cs.any isSpecialChar && cs.all isPasswordChar && 8 ≤ cs.length

/-- `validatePassword` from `src/lib/validation.ts`. -/
def validatePassword (password : String) : ValidationResult :=
  if password = "" then ⟨false, some "Password is required"⟩
  else if password.length < 8 then
    ⟨false, some "Password must be at least 8 characters"⟩
  else if !passwordRegexTest password then
    ⟨false, some "Password must contain: 1 uppercase, 1 lowercase, 1 number, 1 special character"⟩
  else ⟨true, none⟩

/-- Character class `[a-zA-Z\s]` of the name regex (`\s` restricted to the
whitespace characters JavaScript treats as `\s`, via `Char.isWhitespace`). -/
def isNameChar (c : Char) : Bool :=
  c.isAlpha || c.isWhitespace

/-- `validateName` from `src/lib/validation.ts`. -/
def validateName (name : String) : ValidationResult :=
  if name = "" then ⟨false, some "Name is required"⟩
  else if name.length < 3 then ⟨false, some "Name must be at least 3 characters"⟩
  else if !(name.toList ≠ [] && name.toList.all isNameChar) then
    ⟨false, some "Name must contain only alphabets and spaces"⟩
  else ⟨true, none⟩

/-- `validateConfirmPassword` from `src/lib/validation.ts`. -/
def validateConfirmPassword (password confirmPassword : String) : ValidationResult :=
  if confirmPassword = "" then ⟨false, some "Please confirm your password"⟩
  else if password ≠ confirmPassword then ⟨false, some "Passwords do not match"⟩
  else ⟨true, none⟩

/-- C7: `validateEmail` on the address `a@b.com` returns a valid result with no
message. -/
theorem C7_validateEmail_ab_com_valid :
    validateEmail "a@b.com" = ⟨true, none⟩ := by decide

/-- C6: every non-empty password shorter than 8 characters is rejected with the
message naming the 8-character minimum. -/
theorem C6_short_password_rejected (password : String)
    (hne : password ≠ "") (hlen : password.length < 8) :
    validatePassword password =
      ⟨false, some "Password must be at least 8 characters"⟩ := by
  unfold validatePassword
  rw [if_neg hne, if_pos hlen]

/-- C6 witness: the spec's example input `short`. -/
theorem C6_short_password_rejected_witness :
    ("short" : String) ≠ "" ∧ ("short" : String).length < 8 ∧
      validatePassword "short" = ⟨false, some "Password must be at least 8 characters"⟩ :=
  ⟨by decide, by decide, C6_short_password_rejected "short" (by decide) (by decide)⟩

/-- C8: an email that matches the format regex but ends in neither `.com` nor
`.in` is rejected with the suffix message. -/
theorem C8_email_suffix_rejected (email : String)
    (hre : emailRegexTest email = true)
    (hcom : jsEndsWith email ".com" = false)
    (hin : jsEndsWith email ".in" = false) :
    validateEmail email = ⟨false, some "Email must end with .com or .in"⟩ := by
  have hne : email ≠ "" := by
    intro h
    subst h
    simp [emailRegexTest] at hre
  simp [validateEmail, hne, hre, hcom, hin]

/-- C8 witness: the example input `a@b.org`. -/
theorem C8_email_suffix_rejected_witness :
    emailRegexTest "a@b.org" = true ∧ jsEndsWith "a@b.org" ".com" = false ∧
      jsEndsWith "a@b.org" ".in" = false ∧
      validateEmail "a@b.org" = ⟨false, some "Email must end with .com or .in"⟩ :=
  ⟨by decide, by decide, by decide,
    C8_email_suffix_rejected "a@b.org" (by decide) (by decide) (by decide)⟩

/-- C4 counterexample: at the empty string, the two arguments are equal yet the
validator rejects with the confirm-your-password message, so
`validateConfirmPassword p p` is not valid for every `p`. -/
theorem C4_counterexample :
    validateConfirmPassword "" "" = ⟨false, some "Please confirm your password"⟩ := by
  decide

/-- C4 (amended): for every non-empty string `p` (and hence every pair of equal
non-empty strings), `validateConfirmPassword p p` is valid with no message. -/
theorem C4_confirm_password_equal_valid (p : String) (hne : p ≠ "") :
    validateConfirmPassword p p = ⟨true, none⟩ := by
  unfold validateConfirmPassword
  rw [if_neg hne, if_neg (by simp)]

/-- C4 witness: a concrete non-empty password. -/
theorem C4_confirm_password_equal_valid_witness :
    ("hunter42" : String) ≠ "" ∧ validateConfirmPassword "hunter42" "hunter42" = ⟨true, none⟩ :=
  ⟨by decide, C4_confirm_password_equal_valid "hunter42" (by decide)⟩

/-- User payload of `src/store/auth.ts`. -/
structure User where
  id : Int
  name : String
  email : String
  domain : Option String
  role : Option String
deriving DecidableEq, Repr

/-- `localStorage.getItem`, over an association-list model of browser storage. -/
def storageGet (storage : List (String × String)) (key : String) : Option String :=
  (storage.find? (fun kv => kv.1 = key)).map (fun kv => kv.2)

/-- `localStorage.removeItem`. -/
def storageRemove (storage : List (String × String)) (key : String) :
    List (String × String) :=
  storage.filter (fun kv => kv.1 ≠ key)

/-- The in-memory zustand auth state (`token`, `user`). -/
structure AuthState where
  token : Option String
  user : Option User
deriving DecidableEq, Repr

/-- The client-side world the interceptor touches: the auth store, browser
storage, and `window.location.href`. -/
structure ClientWorld where
  auth : AuthState
  storage : List (String × String)
  location : String
deriving DecidableEq, Repr

/-- `logout` from `src/store/auth.ts`: remove both storage entries and null
out token and user. -/
def logout (w : ClientWorld) : ClientWorld :=
  { w with
    storage := storageRemove (storageRemove w.storage "gg_token") "gg_user"
    auth := { token := none, user := none } }

/-- An axios error as seen by the response interceptor (`err.response.status`
when a response exists). -/
structure ApiError where
  status : Option Nat
  data : String
deriving DecidableEq, Repr

/-- The rejection handler of `api.interceptors.response.use` in `src/lib/api.ts`
(bundled after `validation.ts` in the source dump): on status 401 it calls
`authStore.getState().logout()` and sets `window.location.href = '/login'`;
in every case it returns `Promise.reject(err)`. -/
def responseErrorInterceptor (w : ClientWorld) (err : ApiError) :
    ClientWorld × Except ApiError Unit :=
  let w1 := if err.status = some 401 then { logout w with location := "/login" } else w
  (w1, Except.error err)

theorem storageGet_cons (kv : String × String) (rest : List (String × String))
    (k : String) :
    storageGet (kv :: rest) k = if kv.1 = k then some kv.2 else storageGet rest k := by
  by_cases h : kv.1 = k <;> simp [storageGet, List.find?_cons, h]

theorem storageRemove_cons (kv : String × String) (rest : List (String × String))
    (k : String) :
    storageRemove (kv :: rest) k =
      if kv.1 = k then storageRemove rest k else kv :: storageRemove rest k := by
  by_cases h : kv.1 = k <;> simp [storageRemove, List.filter_cons, h]

theorem storageGet_remove_self (s : List (String × String)) (k : String) :
    storageGet (storageRemove s k) k = none := by
  induction s with
  | nil => rfl
  | cons kv rest ih =>
    rw [storageRemove_cons]
    by_cases h : kv.1 = k
    · rwa [if_pos h]
    · rw [if_neg h, storageGet_cons, if_neg h]
      exact ih

theorem storageGet_remove_other (s : List (String × String)) (k k2 : String)
    (hne : k ≠ k2) : storageGet (storageRemove s k2) k = storageGet s k := by
  induction s with
  | nil => rfl
  | cons kv rest ih =>
    rw [storageRemove_cons]
    by_cases h : kv.1 = k2
    · have hk : kv.1 ≠ k := fun hk => hne (hk.symm.trans h)
      rw [if_pos h, storageGet_cons, if_neg hk]
      exact ih
    · rw [if_neg h, storageGet_cons, storageGet_cons]
      by_cases hk : kv.1 = k
      · rw [if_pos hk, if_pos hk]
      · rw [if_neg hk, if_neg hk]
        exact ih

/-- C2: whenever an error with HTTP status 401 reaches the response
interceptor, the token and user are nulled, both browser-storage entries are
removed, the location becomes `/login`, and the error is still rejected to the
caller. -/
theorem C2_interceptor_401_clears_session (w : ClientWorld) (err : ApiError)
    (h401 : err.status = some 401) :
    (responseErrorInterceptor w err).1.auth.token = none ∧
      (responseErrorInterceptor w err).1.auth.user = none ∧
      storageGet (responseErrorInterceptor w err).1.storage "gg_token" = none ∧
      storageGet (responseErrorInterceptor w err).1.storage "gg_user" = none ∧
      (responseErrorInterceptor w err).1.location = "/login" ∧
      (responseErrorInterceptor w err).2 = Except.error err := by
  refine ⟨?_, ?_, ?_, ?_, ?_, ?_⟩ <;>
    simp [responseErrorInterceptor, logout, h401]
  · rw [storageGet_remove_other _ _ _ (by decide)]
    exact storageGet_remove_self _ _
  · exact storageGet_remove_self _ _

/-- C2 witness: a concrete logged-in world hit by a concrete 401 error. -/
theorem C2_interceptor_401_clears_session_witness :
    (ApiError.mk (some 401) "Unauthorized").status = some 401 ∧
      ((responseErrorInterceptor
          ⟨⟨some "tok", some ⟨1, "Ada", "ada@ex.com", none, none⟩⟩,
            [("gg_token", "tok"), ("gg_user", "ada")], "/dashboard"⟩
          ⟨some 401, "Unauthorized"⟩).1.auth.token = none ∧
        (responseErrorInterceptor
          ⟨⟨some "tok", some ⟨1, "Ada", "ada@ex.com", none, none⟩⟩,
            [("gg_token", "tok"), ("gg_user", "ada")], "/dashboard"⟩
          ⟨some 401, "Unauthorized"⟩).1.auth.user = none ∧
        storageGet (responseErrorInterceptor
          ⟨⟨some "tok", some ⟨1, "Ada", "ada@ex.com", none, none⟩⟩,
            [("gg_token", "tok"), ("gg_user", "ada")], "/dashboard"⟩
          ⟨some 401, "Unauthorized"⟩).1.storage "gg_token" = none ∧
        storageGet (responseErrorInterceptor
          ⟨⟨some "tok", some ⟨1, "Ada", "ada@ex.com", none, none⟩⟩,
            [("gg_token", "tok"), ("gg_user", "ada")], "/dashboard"⟩
          ⟨some 401, "Unauthorized"⟩).1.storage "gg_user" = none ∧
        (responseErrorInterceptor
          ⟨⟨some "tok", some ⟨1, "Ada", "ada@ex.com", none, none⟩⟩,
            [("gg_token", "tok"), ("gg_user", "ada")], "/dashboard"⟩
          ⟨some 401, "Unauthorized"⟩).1.location = "/login" ∧
        (responseErrorInterceptor
          ⟨⟨some "tok", some ⟨1, "Ada", "ada@ex.com", none, none⟩⟩,
            [("gg_token", "tok"), ("gg_user", "ada")], "/dashboard"⟩
          ⟨some 401, "Unauthorized"⟩).2 =
          Except.error ⟨some 401, "Unauthorized"⟩) :=
  ⟨rfl, C2_interceptor_401_clears_session _ _ rfl⟩

/-- State of `src/store/gamification.ts`. -/
structure GamificationState where
  xp : Int
  badges : List String
  lastUpdatedAt : Option String
deriving DecidableEq, Repr

/-- The store's initial state: `xp: 0, badges: []`. -/
def initialGamificationState : GamificationState := ⟨0, [], none⟩

/-- `Array.from(new Set(l))` restricted to a seen-set accumulator: keeps the
first occurrence of each element, in order. -/
def jsSetDedup (seen : List String) : List String → List String
  | [] => []
  | x :: xs => if x ∈ seen then jsSetDedup seen xs else x :: jsSetDedup (x :: seen) xs

/-- JavaScript `Array.from(new Set(l))`. -/
def jsSetOfList (l : List String) : List String := jsSetDedup [] l

/-- `addXp` from `src/store/gamification.ts` (`now` is the ISO timestamp). -/
def addXp (amount : Int) (now : String) (s : GamificationState) : GamificationState :=
  { s with xp := s.xp + amount, lastUpdatedAt := some now }

/-- `mergeBadges` from `src/store/gamification.ts`. -/
def mergeBadges (incoming : List String) (now : String) (s : GamificationState) :
    GamificationState :=
  { s with badges := jsSetOfList (s.badges ++ incoming), lastUpdatedAt := some now }

/-- `reset` from `src/store/gamification.ts`. -/
def resetGamification (_s : GamificationState) : GamificationState := ⟨0, [], none⟩

/-- The store's three operations, as events. -/
inductive GamificationOp
  | addXp (amount : Int) (now : String)
  | mergeBadges (incoming : List String) (now : String)
  | reset
deriving DecidableEq, Repr

def applyGamificationOp (s : GamificationState) : GamificationOp → GamificationState
  | .addXp a t => addXp a t s
  | .mergeBadges inc t => mergeBadges inc t s
  | .reset => resetGamification s

def runGamificationOps (s : GamificationState) (ops : List GamificationOp) :
    GamificationState :=
  ops.foldl applyGamificationOp s

theorem mem_jsSetDedup (seen l : List String) (x : String) :
    x ∈ jsSetDedup seen l ↔ x ∈ l ∧ x ∉ seen := by
  induction l generalizing seen with
  | nil => simp [jsSetDedup]
  | cons a xs ih =>
    by_cases h : a ∈ seen
    · rw [jsSetDedup, if_pos h, ih]
      constructor
      · rintro ⟨hx, hs⟩
        exact ⟨List.mem_cons_of_mem _ hx, hs⟩
      · rintro ⟨hx, hs⟩
        rcases List.mem_cons.mp hx with rfl | hx
        · exact absurd h hs
        · exact ⟨hx, hs⟩
    · rw [jsSetDedup, if_neg h]
      simp only [List.mem_cons, ih]
      constructor
      · rintro (rfl | ⟨hx, hs⟩)
        · exact ⟨Or.inl rfl, h⟩
        · exact ⟨Or.inr hx, fun hs2 => hs (Or.inr hs2)⟩
      · rintro ⟨rfl | hx, hs⟩
        · exact Or.inl rfl
        · by_cases hax : x = a
          · exact Or.inl hax
          · exact Or.inr ⟨hx, fun hc => hc.elim hax hs⟩

theorem nodup_jsSetDedup (seen l : List String) : (jsSetDedup seen l).Nodup := by
  induction l generalizing seen with
  | nil => exact List.nodup_nil
  | cons a xs ih =>
    by_cases h : a ∈ seen
    · rw [jsSetDedup, if_pos h]
      exact ih seen
    · rw [jsSetDedup, if_neg h]
      refine List.nodup_cons.mpr ⟨?_, ih (a :: seen)⟩
      intro hmem
      exact ((mem_jsSetDedup _ _ _).mp hmem).2 (List.mem_cons_self a seen)

theorem jsSetDedup_eq_self (seen l : List String) (hnd : l.Nodup)
    (hdisj : ∀ x ∈ l, x ∉ seen) : jsSetDedup seen l = l := by
  induction l generalizing seen with
  | nil => rfl
  | cons a xs ih =>
    rw [jsSetDedup, if_neg (hdisj a (List.mem_cons_self a xs))]
    have hnd' := List.nodup_cons.mp hnd
    congr 1
    refine ih (a :: seen) hnd'.2 ?_
    intro x hx hmem
    rcases List.mem_cons.mp hmem with rfl | hmem
    · exact hnd'.1 hx
    · exact hdisj x (List.mem_cons_of_mem _ hx) hmem

theorem jsSetDedup_append_absorb (seen l m : List String)
    (habs : ∀ x ∈ m, x ∈ l ∨ x ∈ seen) :
    jsSetDedup seen (l ++ m) = jsSetDedup seen l := by
  induction l generalizing seen with
  | nil =>
    simp only [List.nil_append, jsSetDedup]
    induction m with
    | nil => rfl
    | cons b ys ihm =>
      have hb : b ∈ seen := by
        rcases habs b (List.mem_cons_self b ys) with h | h
        · exact absurd h (List.not_mem_nil b)
        · exact h
      rw [jsSetDedup, if_pos hb]
      exact ihm fun x hx => habs x (List.mem_cons_of_mem _ hx)
  | cons a xs ih =>
    by_cases h : a ∈ seen
    · rw [List.cons_append, jsSetDedup, if_pos h, jsSetDedup, if_pos h]
      refine ih seen ?_
      intro x hx
      rcases habs x hx with hl | hs
      · rcases List.mem_cons.mp hl with rfl | hl
        · exact Or.inr h
        · exact Or.inl hl
      · exact Or.inr hs
    · rw [List.cons_append, jsSetDedup, if_neg h, jsSetDedup, if_neg h]
      congr 1
      refine ih (a :: seen) ?_
      intro x hx
      rcases habs x hx with hl | hs
      · rcases List.mem_cons.mp hl with rfl | hl
        · exact Or.inr (List.mem_cons_self x seen)
        · exact Or.inl hl
      · exact Or.inr (List.mem_cons_of_mem _ hs)

theorem badges_nodup_step (s : GamificationState) (op : GamificationOp)
    (h : s.badges.Nodup) : (applyGamificationOp s op).badges.Nodup := by
  cases op with
  | addXp a t => exact h
  | mergeBadges inc t => exact nodup_jsSetDedup [] _
  | reset => exact List.nodup_nil

theorem badges_nodup_run (ops : List GamificationOp) (s : GamificationState)
    (h : s.badges.Nodup) : (runGamificationOps s ops).badges.Nodup := by
  induction ops generalizing s with
  | nil => exact h
  | cons op rest ih => exact ih _ (badges_nodup_step s op h)

theorem mergeBadges_badges_idem (s : GamificationState) (incoming : List String)
    (now now2 : String) :
    (mergeBadges incoming now2 (mergeBadges incoming now s)).badges
      = (mergeBadges incoming now s).badges := by
  show jsSetOfList (jsSetOfList (s.badges ++ incoming) ++ incoming)
      = jsSetOfList (s.badges ++ incoming)
  unfold jsSetOfList
  rw [jsSetDedup_append_absorb]
  · exact jsSetDedup_eq_self [] _ (nodup_jsSetDedup [] _) (by simp)
  · intro x hx
    exact Or.inl ((mem_jsSetDedup [] _ x).mpr ⟨List.mem_append_right _ hx, by simp⟩)

/-- C10: the gamification badges list is duplicate-free in the initial state
and after any sequence of store operations; `addXp` never changes the badges;
and a second `mergeBadges` with the same incoming list leaves the badges
exactly as after the first. -/
theorem C10_gamification_badges_invariant :
    initialGamificationState.badges.Nodup
    ∧ (∀ ops : List GamificationOp,
        (runGamificationOps initialGamificationState ops).badges.Nodup)
    ∧ (∀ (s : GamificationState) (amount : Int) (now : String),
        (addXp amount now s).badges = s.badges)
    ∧ (∀ (s : GamificationState) (incoming : List String) (now now2 : String),
        (mergeBadges incoming now2 (mergeBadges incoming now s)).badges
          = (mergeBadges incoming now s).badges) :=
  ⟨List.nodup_nil,
    fun ops => badges_nodup_run ops initialGamificationState List.nodup_nil,
    fun _ _ _ => rfl,
    fun s incoming now now2 => mergeBadges_badges_idem s incoming now now2⟩

/-- A quiz question delivered by `/quiz` (`src/pages/Quiz.tsx`). -/
structure QuizQuestion where
  id : String
  question : String
  options : List String
  answer : Nat
  explanation : String
  skill : Option String
deriving DecidableEq, Repr

/-- A recorded per-question response (`src/pages/Quiz.tsx`). -/
structure QuizResponse where
  id : String
  selected : Int
  correctIndex : Nat
  correctLabel : String
  explanation : String
  skill : Option String
  isCorrect : Bool
  timeTaken : Nat
  timedOut : Bool
deriving DecidableEq, Repr

/-- Quiz metadata (`src/pages/Quiz.tsx`). -/
structure QuizMeta where
  timePerQuestion : Nat
  pointsPerCorrect : Nat
  totalAvailable : Nat
deriving DecidableEq, Repr

def DEFAULT_TIME_LIMIT : Nat := 60

/-- The Quiz page's component state, in `useState` declaration order; the
load/render-only fields (`isLoading`, `error`, `summary`) are omitted because
none of the finish/timeout handlers modelled here reads or writes them before
the submit request is issued. -/
structure QuizPageState where
  activeDomain : String
  mode : String
  difficulty : String
  questions : List QuizQuestion
  currentIndex : Nat
  selectedOption : Option Int
  isAnswerSubmitted : Bool
  responses : List QuizResponse
  correctCount : Nat
  isSubmittingResults : Bool
  quizMeta : Option QuizMeta
  questionTimeLeft : Nat
  currentPoints : Nat
  currentStreak : Nat
  maxStreakLive : Nat
  totalTimeSpent : Nat
deriving DecidableEq, Repr

/-- `quizMeta?.timePerQuestion ?? DEFAULT_TIME_LIMIT`. -/
def timePerQuestionOf (st : QuizPageState) : Nat :=
  match st.quizMeta with
  | some m => m.timePerQuestion
  | none => DEFAULT_TIME_LIMIT

/-- One entry of the `/quiz/submit` payload (`src/lib/api.ts`). -/
structure QuizSubmitEntry where
  id : String
  selected : Int
  correct : Nat
  correctLabel : String
  explanation : String
  skill : Option String
  time_taken : Nat
deriving DecidableEq, Repr

/-- The `/quiz/submit` payload (`src/lib/api.ts`). -/
structure QuizSubmitPayload where
  domain : String
  mode : String
  difficulty : String
  score : Nat
  total_questions : Nat
  total_time_taken : Nat
  responses : List QuizSubmitEntry
deriving DecidableEq, Repr

/-- Observable outcome of `handleFinishQuiz`: an error toast with no request,
or a submit request carrying the payload. -/
inductive FinishOutcome
  | refused (toastMessage : String)
  | submitted (payload : QuizSubmitPayload)
deriving DecidableEq, Repr

/-- `Math.round((correctCount / questions.length) * 100)`, modelled over exact
rationals as round-half-up of `100 * c / n`. -/
def mathRound100Ratio (c n : Nat) : Nat := (200 * c + n) / (2 * n)

/-- `handleFinishQuiz` from `src/pages/Quiz.tsx`, split into the snapshot the
closure reads (`captured`) and the component state its setters update
(`live`); on the button path the two coincide.  The model stops at the point
the `/quiz/submit` request is issued (`setIsSubmittingResults(true)` has run);
everything after depends on the backend's response. -/
def handleFinishQuizOn (captured live : QuizPageState) :
    FinishOutcome × QuizPageState :=
  if captured.responses.length ≠ captured.questions.length then
    (.refused "Answer every question to finish.", live)
  else
    (.submitted
      { domain := captured.activeDomain
        mode := captured.mode
        difficulty := captured.difficulty
        score := mathRound100Ratio captured.correctCount captured.questions.length
        total_questions := captured.questions.length
        total_time_taken := captured.totalTimeSpent
        responses := captured.responses.map (fun r =>
          { id := r.id
            selected := r.selected
            correct := if r.isCorrect then 1 else 0
            correctLabel := r.correctLabel
            explanation := r.explanation
            skill := r.skill
            time_taken := r.timeTaken }) },
      { live with isSubmittingResults := true })

/-- `handleFinishQuiz` invoked with a fresh closure (the Next-button path). -/
def handleFinishQuiz (st : QuizPageState) : FinishOutcome × QuizPageState :=
  handleFinishQuizOn st st

/-- The synchronous body of `handleTimeExpired`: the guards, then the recording
of the timed-out response.  The returned flag says whether the guards passed
(and hence whether the 1200 ms advance was scheduled). -/
def handleTimeExpiredSync (st : QuizPageState) : QuizPageState × Bool :=
  if st.isAnswerSubmitted then (st, false)
  else
    match st.questions.get? st.currentIndex with
    | none => (st, false)
    | some q =>
      if st.responses.any (fun r => r.id = q.id) then (st, false)
      else
        let totalWindow := timePerQuestionOf st
        ({ st with
            isAnswerSubmitted := true
            selectedOption := some (-1)
            currentStreak := 0
            totalTimeSpent := st.totalTimeSpent + totalWindow
            responses := st.responses ++
              [{ id := q.id
                 selected := -1
                 correctIndex := q.answer
                 correctLabel := q.options.getD q.answer ""
                 explanation := q.explanation
                 skill := q.skill
                 isCorrect := false
                 timeTaken := totalWindow
                 timedOut := true }]
            questionTimeLeft := 0 },
          true)

/-- The 1200 ms `setTimeout` continuation inside `handleTimeExpired`.  Its
closure captured `currentIndex`, `questions.length`, `quizMeta` and
`handleFinishQuiz` from the render in which the timer expired, so the
`handleFinishQuiz` it invokes reads the response list *without* the
just-recorded timed-out entry (`captured`), while its setters act on the
current component state (`live`). -/
def handleTimeExpiredAdvance (captured live : QuizPageState) :
    Option FinishOutcome × QuizPageState :=
  if captured.currentIndex = captured.questions.length - 1 then
    let r := handleFinishQuizOn captured live
    (some r.1, r.2)
  else
    (none,
      { live with
          currentIndex := live.currentIndex + 1
          selectedOption := none
          isAnswerSubmitted := false
          questionTimeLeft := timePerQuestionOf captured })

/-- One firing of the 1-second countdown interval in `src/pages/Quiz.tsx`,
including (when the window is exhausted) `handleTimeExpired` and its 1200 ms
continuation. -/
def countdownTick (st : QuizPageState) : QuizPageState × Option FinishOutcome :=
  if st.questionTimeLeft ≤ 1 then
    let sync := handleTimeExpiredSync st
    let live1 := { sync.1 with questionTimeLeft := 0 }
    if sync.2 then
      let adv := handleTimeExpiredAdvance st live1
      (adv.2, adv.1)
    else (live1, none)
  else ({ st with questionTimeLeft := st.questionTimeLeft - 1 }, none)

theorem mathRound100Ratio_le_100 (c n : Nat) (hn : 0 < n) (hc : c ≤ n) :
    mathRound100Ratio c n ≤ 100 := by
  unfold mathRound100Ratio
  have h1 : 200 * c + n ≤ 201 * n := by nlinarith
  calc (200 * c + n) / (2 * n) ≤ (201 * n) / (2 * n) := Nat.div_le_div_right h1
    _ = 100 := by
      have h2 : 201 * n = 2 * n * 100 + n := by ring
      rw [h2, Nat.mul_add_div (by omega)]
      have h3 : n / (2 * n) = 0 := Nat.div_eq_of_lt (by omega)
      omega

/-- C9: `handleFinishQuiz` refuses with an error toast, issues no request and
leaves the state unchanged whenever the number of recorded responses differs
from the number of questions; when it submits, the payload's score is
round(100 · correctCount / #questions) and is at most 100. -/
theorem C9_finish_quiz_guard_and_score (st : QuizPageState) :
    (st.responses.length ≠ st.questions.length →
      handleFinishQuiz st = (.refused "Answer every question to finish.", st))
    ∧ (st.responses.length = st.questions.length →
        0 < st.questions.length →
        st.correctCount ≤ st.questions.length →
        ∃ payload,
          (handleFinishQuiz st).1 = .submitted payload ∧
            payload.score = mathRound100Ratio st.correctCount st.questions.length ∧
            payload.score ≤ 100) := by
  constructor
  · intro h
    unfold handleFinishQuiz handleFinishQuizOn
    rw [if_pos h]
  · intro heq hpos hle
    unfold handleFinishQuiz handleFinishQuizOn
    rw [if_neg (not_not_intro heq)]
    exact ⟨_, rfl, rfl, mathRound100Ratio_le_100 _ _ hpos hle⟩

/-- C9 witness: a one-question quiz, first with a missing response (refused,
state untouched), then fully answered (submitted with score 100). -/
theorem C9_finish_quiz_guard_and_score_witness :
    (handleFinishQuiz
        ⟨"AI/ML", "concept", "intermediate", [⟨"q1", "2+2?", ["3", "4"], 1, "because", none⟩],
          0, none, false, [], 0, false, some ⟨60, 20, 1⟩, 1, 0, 0, 0, 0⟩ =
      (.refused "Answer every question to finish.",
        ⟨"AI/ML", "concept", "intermediate", [⟨"q1", "2+2?", ["3", "4"], 1, "because", none⟩],
          0, none, false, [], 0, false, some ⟨60, 20, 1⟩, 1, 0, 0, 0, 0⟩))
    ∧ (∃ payload,
        (handleFinishQuiz
            ⟨"AI/ML", "concept", "intermediate", [⟨"q1", "2+2?", ["3", "4"], 1, "because", none⟩],
              0, some 1, true, [⟨"q1", 1, 1, "4", "because", none, true, 10, false⟩],
              1, false, some ⟨60, 20, 1⟩, 50, 20, 1, 1, 10⟩).1 = .submitted payload ∧
          payload.score = mathRound100Ratio 1 1 ∧ payload.score ≤ 100) :=
  ⟨(C9_finish_quiz_guard_and_score _).1 (by decide),
    (C9_finish_quiz_guard_and_score _).2 (by decide) (by decide) (by decide)⟩

/-- A one-question quiz in which the countdown is about to expire with no
answer locked in: the failing input for the quiz auto-submit claim. -/
def quizTimeoutFailingState : QuizPageState :=
  { activeDomain := "AI/ML"
    mode := "concept"
    difficulty := "intermediate"
    questions := [⟨"q1", "2+2?", ["3", "4"], 1, "because", none⟩]
    currentIndex := 0
    selectedOption := none
    isAnswerSubmitted := false
    responses := []
    correctCount := 0
    isSubmittingResults := false
    quizMeta := some ⟨60, 20, 1⟩
    questionTimeLeft := 1
    currentPoints := 0
    currentStreak := 3
    maxStreakLive := 3
    totalTimeSpent := 0 }

/-- C3: when the countdown expires on the last unanswered question, the
timed-out response is recorded as claimed (selected −1, time taken equal to
the full 60-second window, streak reset to 0), but the scheduled
`handleFinishQuiz` call runs against the closure's stale response list, so the
promised auto-submit is refused with the answer-every-question toast instead
of submitting the results. -/
theorem C3_last_question_timeout_records_but_never_submits :
    countdownTick quizTimeoutFailingState =
      ({ quizTimeoutFailingState with
          isAnswerSubmitted := true
          selectedOption := some (-1)
          currentStreak := 0
          totalTimeSpent := 60
          questionTimeLeft := 0
          responses := [⟨"q1", -1, 1, "4", "because", none, false, 60, true⟩] },
        some (.refused "Answer every question to finish.")) := by
  decide

/-- A payload flowing through the domain-aware API layer
(`src/lib/enhancedApi.ts`).  Backend data is abstract; a mock value is
identified by the name it is exported under from `./mockData`. -/
inductive ApiPayload
  | backend (tag : Nat)
  | mock (label : String)
deriving DecidableEq, Repr

/-- Modelled from the spec: the hard-coded mock objects (`mockUserProfile`,
`mockRecommendations`, ...) are imported from `./mockData`, a file that is not
part of the provided tree; the spec describes them only as "hard-coded
mock/default data", so each is represented by its exported name — only its
identity matters to the wrapper's control flow. -/
def mockUserProfile : ApiPayload := .mock "mockUserProfile"

def mockRecommendationsPersonalized : ApiPayload := .mock "mockRecommendations.personalized"

def mockTrendingSkills : ApiPayload := .mock "mockTrendingSkills"

def mockVideos : ApiPayload := .mock "mockVideos"

def mockCourses : ApiPayload := .mock "mockCourses"

def mockCertifications : ApiPayload := .mock "mockCertifications"

def mockBeginnerChecklist : ApiPayload := .mock "mockBeginnerChecklist"

def mockUserStreak : ApiPayload := .mock "mockUserStreak"

def mockQuizQuestions : ApiPayload := .mock "mockQuizQuestions"

def mockCodingChallenge : ApiPayload := .mock "mockCodingChallenge"

def mockPlaylist : ApiPayload := .mock "mockPlaylist"

def mockRecentActivity : ApiPayload := .mock "mockRecentActivity"

/-- Inline default of the non-critical methods: `\x7b success, message \x7d`. -/
structure TrackOpResult where
  success : Bool
  message : String
deriving DecidableEq, Repr

structure CodeTestResult where
  test : String
  passed : Bool
deriving DecidableEq, Repr

/-- Inline default of `submitCode`. -/
structure SubmitCodeResult where
  success : Bool
  score : Nat
  feedback : String
  test_results : List CodeTestResult
deriving DecidableEq, Repr

/-- Inline default of `exportRoadmap`. -/
structure ExportRoadmapResult where
  success : Bool
  download_url : String
  filename : String
deriving DecidableEq, Repr

/-- The `EnhancedDomainApi` class state: its private `useMockData` flag. -/
structure EnhancedDomainApi where
  useMockData : Bool
deriving DecidableEq, Repr

/-- The exported singleton `enhancedDomainApi = new EnhancedDomainApi()`,
whose `useMockData` field is initialised to `false`. -/
def enhancedDomainApi : EnhancedDomainApi := ⟨false⟩

/-- `enableMockData` from `src/lib/enhancedApi.ts`. -/
def EnhancedDomainApi.enableMockData (_self : EnhancedDomainApi) (value : Bool) :
    EnhancedDomainApi :=
  ⟨value⟩

/-- The try/catch body shared verbatim by every wrapped method: return the
awaited backend result; in the catch block, `if (!this.useMockData) throw
error`, otherwise return the fallback value.  The backend call
(`domainAwareApi`, also outside the provided tree) enters as a parameter. -/
def EnhancedDomainApi.callWithFallback {α : Type} (self : EnhancedDomainApi)
    (backendCall : Except ApiError α) (fallback : α) : Except ApiError α :=
  match backendCall with
  | .ok v => .ok v
  | .error e => if self.useMockData then .ok fallback else .error e

def EnhancedDomainApi.getUserProfile (self : EnhancedDomainApi)
    (backendCall : Except ApiError ApiPayload) : Except ApiError ApiPayload :=
  self.callWithFallback backendCall mockUserProfile

def EnhancedDomainApi.getPersonalizedRecommendations (self : EnhancedDomainApi)
    (backendCall : Except ApiError ApiPayload) : Except ApiError ApiPayload :=
  self.callWithFallback backendCall mockRecommendationsPersonalized

def EnhancedDomainApi.getTrendingSkills (self : EnhancedDomainApi)
    (backendCall : Except ApiError ApiPayload) : Except ApiError ApiPayload :=
  self.callWithFallback backendCall mockTrendingSkills

def EnhancedDomainApi.getVideos (self : EnhancedDomainApi)
    (backendCall : Except ApiError ApiPayload) : Except ApiError ApiPayload :=
  self.callWithFallback backendCall mockVideos

def EnhancedDomainApi.getCourses (self : EnhancedDomainApi)
    (backendCall : Except ApiError ApiPayload) : Except ApiError ApiPayload :=
  self.callWithFallback backendCall mockCourses

def EnhancedDomainApi.getCertificationRoadmap (self : EnhancedDomainApi)
    (backendCall : Except ApiError ApiPayload) : Except ApiError ApiPayload :=
  self.callWithFallback backendCall mockCertifications

def EnhancedDomainApi.getBeginnerChecklist (self : EnhancedDomainApi)
    (backendCall : Except ApiError ApiPayload) : Except ApiError ApiPayload :=
  self.callWithFallback backendCall mockBeginnerChecklist

def EnhancedDomainApi.getUserStreak (self : EnhancedDomainApi)
    (backendCall : Except ApiError ApiPayload) : Except ApiError ApiPayload :=
  self.callWithFallback backendCall mockUserStreak

def EnhancedDomainApi.getQuizQuestions (self : EnhancedDomainApi)
    (backendCall : Except ApiError ApiPayload) : Except ApiError ApiPayload :=
  self.callWithFallback backendCall mockQuizQuestions

def EnhancedDomainApi.getCodingChallenge (self : EnhancedDomainApi)
    (backendCall : Except ApiError ApiPayload) : Except ApiError ApiPayload :=
  self.callWithFallback backendCall mockCodingChallenge

def EnhancedDomainApi.getUserPlaylist (self : EnhancedDomainApi)
    (backendCall : Except ApiError ApiPayload) : Except ApiError ApiPayload :=
  self.callWithFallback backendCall mockPlaylist

def EnhancedDomainApi.getRecentActivity (self : EnhancedDomainApi)
    (backendCall : Except ApiError ApiPayload) : Except ApiError ApiPayload :=
  self.callWithFallback backendCall mockRecentActivity

def EnhancedDomainApi.trackProgress (self : EnhancedDomainApi)
    (backendCall : Except ApiError TrackOpResult) : Except ApiError TrackOpResult :=
  self.callWithFallback backendCall ⟨true, "Progress tracked locally"⟩

def EnhancedDomainApi.addToPlaylist (self : EnhancedDomainApi)
    (backendCall : Except ApiError TrackOpResult) : Except ApiError TrackOpResult :=
  self.callWithFallback backendCall ⟨true, "Added to local playlist"⟩

def EnhancedDomainApi.removeFromPlaylist (self : EnhancedDomainApi)
    (backendCall : Except ApiError TrackOpResult) : Except ApiError TrackOpResult :=
  self.callWithFallback backendCall ⟨true, "Removed from local playlist"⟩

def EnhancedDomainApi.updatePlaylistProgress (self : EnhancedDomainApi)
    (backendCall : Except ApiError TrackOpResult) : Except ApiError TrackOpResult :=
  self.callWithFallback backendCall ⟨true, "Updated local progress"⟩

def EnhancedDomainApi.submitCode (self : EnhancedDomainApi)
    (backendCall : Except ApiError SubmitCodeResult) : Except ApiError SubmitCodeResult :=
  self.callWithFallback backendCall
    ⟨true, 85, "Good solution! Consider optimizing for better performance.",
      [⟨"Test 1", true⟩, ⟨"Test 2", true⟩]⟩

def EnhancedDomainApi.exportRoadmap (self : EnhancedDomainApi)
    (backendCall : Except ApiError ExportRoadmapResult) :
    Except ApiError ExportRoadmapResult :=
  self.callWithFallback backendCall
    ⟨true, "data:text/plain;base64,SGVsbG8gV29ybGQh", "roadmap.pdf"⟩

/-- C1 counterexample: on the exported singleton (whose `useMockData` flag is
still `false`), a failing backend call to `getUserProfile` propagates the
error to the caller instead of returning the mock profile, refuting the
unconditional-fallback reading. -/
theorem C1_counterexample :
    enhancedDomainApi.getUserProfile (Except.error ⟨some 500, "backend down"⟩) =
      Except.error ⟨some 500, "backend down"⟩ := rfl

/-- C1 (amended): every wrapped operation falls back to its hard-coded
mock/default value on backend failure only once mock data has been enabled via
`enableMockData(true)`; with the flag in its initial `false` state the error is
rethrown to the caller. -/
theorem C1_fallback_only_when_mock_enabled (e : ApiError) :
    ((enhancedDomainApi.enableMockData true).getUserProfile (.error e) = .ok mockUserProfile)
    ∧ ((enhancedDomainApi.enableMockData true).getPersonalizedRecommendations (.error e) =
        .ok mockRecommendationsPersonalized)
    ∧ ((enhancedDomainApi.enableMockData true).getTrendingSkills (.error e) = .ok mockTrendingSkills)
    ∧ ((enhancedDomainApi.enableMockData true).getVideos (.error e) = .ok mockVideos)
    ∧ ((enhancedDomainApi.enableMockData true).getCourses (.error e) = .ok mockCourses)
    ∧ ((enhancedDomainApi.enableMockData true).getCertificationRoadmap (.error e) =
        .ok mockCertifications)
    ∧ ((enhancedDomainApi.enableMockData true).getBeginnerChecklist (.error e) =
        .ok mockBeginnerChecklist)
    ∧ ((enhancedDomainApi.enableMockData true).getUserStreak (.error e) = .ok mockUserStreak)
    ∧ ((enhancedDomainApi.enableMockData true).getQuizQuestions (.error e) = .ok mockQuizQuestions)
    ∧ ((enhancedDomainApi.enableMockData true).getCodingChallenge (.error e) =
        .ok mockCodingChallenge)
    ∧ ((enhancedDomainApi.enableMockData true).getUserPlaylist (.error e) = .ok mockPlaylist)
    ∧ ((enhancedDomainApi.enableMockData true).getRecentActivity (.error e) =
        .ok mockRecentActivity)
    ∧ ((enhancedDomainApi.enableMockData true).trackProgress (.error e) =
        .ok ⟨true, "Progress tracked locally"⟩)
    ∧ ((enhancedDomainApi.enableMockData true).addToPlaylist (.error e) =
        .ok ⟨true, "Added to local playlist"⟩)
    ∧ ((enhancedDomainApi.enableMockData true).removeFromPlaylist (.error e) =
        .ok ⟨true, "Removed from local playlist"⟩)
    ∧ ((enhancedDomainApi.enableMockData true).updatePlaylistProgress (.error e) =
        .ok ⟨true, "Updated local progress"⟩)
    ∧ ((enhancedDomainApi.enableMockData true).submitCode (.error e) =
        .ok ⟨true, 85, "Good solution! Consider optimizing for better performance.",
          [⟨"Test 1", true⟩, ⟨"Test 2", true⟩]⟩)
    ∧ ((enhancedDomainApi.enableMockData true).exportRoadmap (.error e) =
        .ok ⟨true, "data:text/plain;base64,SGVsbG8gV29ybGQh", "roadmap.pdf"⟩)
    ∧ (enhancedDomainApi.getUserProfile (.error e) = .error e)
    ∧ (enhancedDomainApi.getPersonalizedRecommendations (.error e) = .error e)
    ∧ (enhancedDomainApi.getTrendingSkills (.error e) = .error e)
    ∧ (enhancedDomainApi.getVideos (.error e) = .error e)
    ∧ (enhancedDomainApi.getCourses (.error e) = .error e)
    ∧ (enhancedDomainApi.getCertificationRoadmap (.error e) = .error e)
    ∧ (enhancedDomainApi.getBeginnerChecklist (.error e) = .error e)
    ∧ (enhancedDomainApi.getUserStreak (.error e) = .error e)
    ∧ (enhancedDomainApi.getQuizQuestions (.error e) = .error e)
    ∧ (enhancedDomainApi.getCodingChallenge (.error e) = .error e)
    ∧ (enhancedDomainApi.getUserPlaylist (.error e) = .error e)
    ∧ (enhancedDomainApi.getRecentActivity (.error e) = .error e)
    ∧ (enhancedDomainApi.trackProgress (.error e) = .error e)
    ∧ (enhancedDomainApi.addToPlaylist (.error e) = .error e)
    ∧ (enhancedDomainApi.removeFromPlaylist (.error e) = .error e)
    ∧ (enhancedDomainApi.updatePlaylistProgress (.error e) = .error e)
    ∧ (enhancedDomainApi.submitCode (.error e) = .error e)
    ∧ (enhancedDomainApi.exportRoadmap (.error e) = .error e) :=
  ⟨rfl, rfl, rfl, rfl, rfl, rfl, rfl, rfl, rfl, rfl, rfl, rfl, rfl, rfl, rfl, rfl, rfl, rfl,
    rfl, rfl, rfl, rfl, rfl, rfl, rfl, rfl, rfl, rfl, rfl, rfl, rfl, rfl, rfl, rfl, rfl, rfl⟩

/-- A university entry of the autocomplete hook (`useUniversitySearch`). -/
structure University where
  name : String
  country : String
deriving DecidableEq, Repr

/-- The hard-coded `FALLBACK_UNIVERSITIES` list of the hook. -/
def FALLBACK_UNIVERSITIES : List University :=
  [⟨"Amrita Vishwa Vidyapeetham", "India"⟩,
   ⟨"VIT University (Vellore Institute of Technology)", "India"⟩,
   ⟨"Indian Institute of Technology Delhi", "India"⟩,
   ⟨"Indian Institute of Technology Bombay", "India"⟩,
   ⟨"Indian Institute of Technology Madras", "India"⟩,
   ⟨"Indian Institute of Technology Kanpur", "India"⟩,
   ⟨"Indian Institute of Technology Kharagpur", "India"⟩,
   ⟨"Delhi University", "India"⟩,
   ⟨"Jawaharlal Nehru University", "India"⟩,
   ⟨"Birla Institute of Technology", "India"⟩,
   ⟨"Manipal Institute of Technology", "India"⟩,
   ⟨"SRM Institute of Science and Technology", "India"⟩,
   ⟨"Chandigarh University", "India"⟩,
   ⟨"PES University", "India"⟩,
   ⟨"NIT Trichy", "India"⟩,
   ⟨"NIT Warangal", "India"⟩,
   ⟨"Massachusetts Institute of Technology", "United States"⟩,
   ⟨"Stanford University", "United States"⟩,
   ⟨"Harvard University", "United States"⟩,
   ⟨"University of California, Berkeley", "United States"⟩,
   ⟨"Carnegie Mellon University", "United States"⟩,
   ⟨"University of Cambridge", "United Kingdom"⟩,
   ⟨"Oxford University", "United Kingdom"⟩,
   ⟨"ETH Zurich", "Switzerland"⟩,
   ⟨"University of Toronto", "Canada"⟩]

/-- Whether the first char list is a prefix of the second. -/
def listStarts : List Char → List Char → Bool
  | [], _ => true
  | _ :: _, [] => false
  | a :: as, b :: bs => a = b && listStarts as bs

/-- JavaScript `String.prototype.includes`, over char lists. -/
def listIncludes (needle hay : List Char) : Bool :=
  match hay with
  | [] => needle.isEmpty
  | _ :: rest => listStarts needle hay || listIncludes needle rest

/-- JavaScript `hay.toLowerCase().includes(needle.toLowerCase())` (ASCII). -/
def containsLowerCase (hay needle : String) : Bool :=
  listIncludes (needle.toList.map Char.toLower) (hay.toList.map Char.toLower)

/-- The fallback branch of the hook: the fallback list filtered
case-insensitively by the query; the first 10 entries when nothing matches. -/
def fallbackResults (query : String) : List University :=
  let filtered := FALLBACK_UNIVERSITIES.filter (fun u => containsLowerCase u.name query)
  if filtered.length > 0 then filtered else FALLBACK_UNIVERSITIES.take 10

/-- Possible completions of the `fetch` to the universities API. -/
inductive FetchOutcome
  | success (data : List University)
  | notOk
  | aborted
  | failed
deriving DecidableEq, Repr

/-- Result of one debounced lookup run: the universities shown, the surfaced
error, and the updated module-level `apiDisabled` flag. -/
structure LookupRun where
  universities : List University
  error : Option String
  apiDisabled : Bool
deriving DecidableEq, Repr

/-- The body of the hook's debounce timer, for a query that already passed the
`length >= 2` guard: try the remote API (at most once per session, and only
for queries of length >= 3); on a successful non-empty JSON array show its
first 10 entries, and in every other case — non-ok response, empty result,
abort, network failure (which also sets `apiDisabled`) — fall through to the
hard-coded fallback.  `setError` is only ever called with `null`. -/
def universityLookupRun (query : String) (apiDisabled : Bool)
    (outcome : FetchOutcome) : LookupRun :=
  let useFallback := apiDisabled || query.length < 3
  if !useFallback && !apiDisabled then
    match outcome with
    | .success data =>
      if data.length > 0 then ⟨data.take 10, none, apiDisabled⟩
      else ⟨fallbackResults query, none, apiDisabled⟩
    | .notOk => ⟨fallbackResults query, none, apiDisabled⟩
    | .aborted => ⟨fallbackResults query, none, apiDisabled⟩
    | .failed => ⟨fallbackResults query, none, true⟩
  else ⟨fallbackResults query, none, apiDisabled⟩

/-- The effect machinery of the hook that the debounce/cancellation part of
the claim mentions: the pending `setTimeout` and the abort controller, with
controllers named by allocation ids so that `abort()` calls are observable. -/
structure HookEffectState where
  universities : List University
  error : Option String
  pendingTimer : Option (Nat × String)
  controller : Option Nat
  abortedControllers : List Nat
  apiDisabled : Bool
  nextControllerId : Nat
deriving DecidableEq, Repr

/-- A query change: React first runs the previous effect's cleanup
(`clearTimeout` plus `abort()` on the current controller; the effect body's
own leading `abort()` of the same controller is idempotent), then the new
effect body: a query shorter than 2 characters clears the list and schedules
nothing, any other query schedules the debounce timer for `debounceMs`.  No
fetch is dispatched here. -/
def onQueryChange (debounceMs : Nat) (query : String) (s : HookEffectState) :
    HookEffectState :=
  let cleaned := { s with
    pendingTimer := none
    abortedControllers :=
      match s.controller with
      | some id => id :: s.abortedControllers
      | none => s.abortedControllers }
  if query.length < 2 then { cleaned with universities := [] }
  else { cleaned with pendingTimer := some (debounceMs, query) }

/-- The debounce timer firing, with the eventual completion of the fetch it
may dispatch: a fresh `AbortController` is allocated exactly on the API path,
and the run's results are written to the hook state. -/
def onTimerFire (s : HookEffectState) (outcome : FetchOutcome) : HookEffectState :=
  match s.pendingTimer with
  | none => s
  | some (_, query) =>
    let run := universityLookupRun query s.apiDisabled outcome
    let usesApi := !(s.apiDisabled || query.length < 3)
    { s with
      pendingTimer := none
      controller := if usesApi then some s.nextControllerId else s.controller
      nextControllerId := if usesApi then s.nextControllerId + 1 else s.nextControllerId
      universities := run.universities
      error := run.error
      apiDisabled := run.apiDisabled }

/-- C5: the university lookup never surfaces a failure (its error output is
`none` for every fetch outcome); on a failed, aborted, non-ok or empty-result
fetch it shows the case-insensitively filtered fallback list; when no fallback
name matches it shows the first 10 fallback entries; a query change only
schedules the `debounceMs` timer — dispatching no fetch — and aborts the
previous in-flight controller. -/
theorem C5_university_search_silent_fallback (query : String) (apiDis : Bool)
    (s : HookEffectState) (debounceMs id : Nat) :
    (∀ outcome, (universityLookupRun query apiDis outcome).error = none)
    ∧ ((universityLookupRun query apiDis .failed).universities = fallbackResults query)
    ∧ ((universityLookupRun query apiDis .notOk).universities = fallbackResults query)
    ∧ ((universityLookupRun query apiDis .aborted).universities = fallbackResults query)
    ∧ ((universityLookupRun query apiDis (.success [])).universities = fallbackResults query)
    ∧ (FALLBACK_UNIVERSITIES.filter (fun u => containsLowerCase u.name query) = [] →
        fallbackResults query = FALLBACK_UNIVERSITIES.take 10)
    ∧ (2 ≤ query.length →
        (onQueryChange debounceMs query s).pendingTimer = some (debounceMs, query))
    ∧ ((onQueryChange debounceMs query s).nextControllerId = s.nextControllerId)
    ∧ (s.controller = some id →
        id ∈ (onQueryChange debounceMs query s).abortedControllers) := by
  refine ⟨?_, ?_, ?_, ?_, ?_, ?_, ?_, ?_, ?_⟩
  · intro o
    unfold universityLookupRun
    cases o <;> dsimp only <;> split <;> try rfl
    split <;> rfl
  · unfold universityLookupRun
    dsimp only
    split <;> rfl
  · unfold universityLookupRun
    dsimp only
    split <;> rfl
  · unfold universityLookupRun
    dsimp only
    split <;> rfl
  · unfold universityLookupRun
    dsimp only
    split <;> rfl
  · intro hfilt
    unfold fallbackResults
    rw [hfilt]
    rfl
  · intro hq
    unfold onQueryChange
    rw [if_neg (by omega)]
  · unfold onQueryChange
    dsimp only
    split <;> rfl
  · intro hc
    unfold onQueryChange
    rw [hc]
    dsimp only
    split <;> exact List.mem_cons_self id _

/-- C5 witness: a concrete query with an in-flight controller, a failed fetch,
and a query matching no fallback name. -/
theorem C5_university_search_silent_fallback_witness :
    ((universityLookupRun "stan" false .failed).error = none)
    ∧ ((universityLookupRun "stan" false .failed).universities = fallbackResults "stan")
    ∧ (FALLBACK_UNIVERSITIES.filter (fun u => containsLowerCase u.name "zzz") = [] ∧
        fallbackResults "zzz" = FALLBACK_UNIVERSITIES.take 10)
    ∧ (2 ≤ ("stan" : String).length ∧
        (onQueryChange 500 "stan" ⟨[], none, none, some 7, [], false, 8⟩).pendingTimer =
          some (500, "stan"))
    ∧ ((⟨[], none, none, some 7, [], false, 8⟩ : HookEffectState).controller = some 7 ∧
        7 ∈ (onQueryChange 500 "stan"
              ⟨[], none, none, some 7, [], false, 8⟩).abortedControllers) :=
  ⟨(C5_university_search_silent_fallback "stan" false
      ⟨[], none, none, some 7, [], false, 8⟩ 500 7).1 .failed,
   (C5_university_search_silent_fallback "stan" false
      ⟨[], none, none, some 7, [], false, 8⟩ 500 7).2.1,
   ⟨by decide,
    (C5_university_search_silent_fallback "zzz" false
      ⟨[], none, none, some 7, [], false, 8⟩ 500 7).2.2.2.2.2.1 (by decide)⟩,
   ⟨by decide,
    (C5_university_search_silent_fallback "stan" false
      ⟨[], none, none, some 7, [], false, 8⟩ 500 7).2.2.2.2.2.2.1 (by decide)⟩,
   ⟨rfl,
    (C5_university_search_silent_fallback "stan" false
      ⟨[], none, none, some 7, [], false, 8⟩ 500 7).2.2.2.2.2.2.2.2 rfl⟩⟩
